import Mathlib

/-!
Shallow embedding of `txnode.go` (package `txnode`), a transaction-chaining
helper for SQL operations.

The Go struct `TxNode` holds three fields (`isStart`, `tx`, `isEnd`); its
methods take a possibly-nil receiver, modelled here as `Option TxNode`.
The external collaborators (`*sql.DB`, `*sql.Tx`) are modelled as a record
`DB` of oracle functions; every database call a method performs is recorded
in an event trace so that statements such as "never begins a transaction"
or "performs no database I/O" can be expressed directly.
-/

namespace Txnode

/-- `context.Context`, opaque to this component: only threaded through. -/
abbrev Ctx := Nat

/-- A `*sql.Tx` handle, identified abstractly. -/
abbrev Tx := Nat

/-- A `*sql.Stmt` handle, identified abstractly. -/
abbrev Stmt := Nat

/-- Go `error` values as this component observes them: errors created by
`errors.New` (carrying a message) and errors created by
`fmt.Errorf("%s: %w", op, cause)` (wrapping a cause with an operation tag). -/
inductive GoError where
  | errorNew (msg : String)
  | wrap (op : String) (cause : GoError)
deriving DecidableEq

/-- The message of a Go error, as `%v` formatting renders it. -/
def GoError.message : GoError → String
  | .errorNew m => m
  | .wrap op cause => op ++ ": " ++ cause.message

/-- `var ErrTransactionArgsMismatch = errors.New("transaction args mismatch")`. -/
def ErrTransactionArgsMismatch : GoError := .errorNew "transaction args mismatch"

/-- One database call performed by a `TxNode` method. -/
inductive DBEvent where
  | dbPrepare (ctx : Ctx) (query : String)
  | dbBeginTx (ctx : Ctx)
  | txPrepare (tx : Tx) (ctx : Ctx) (query : String)
  | txRollback (tx : Tx)
  | txCommit (tx : Tx)
deriving DecidableEq

/-- The database collaborator: the behaviour of `*sql.DB` and of every
`*sql.Tx` it hands out, as pure oracle functions. -/
structure DB where
  prepareContext : Ctx → String → Except GoError Stmt
  beginTx : Ctx → Except GoError Tx
  txPrepareContext : Tx → Ctx → String → Except GoError Stmt
  txRollback : Tx → Option GoError
  txCommit : Tx → Option GoError

/-- The Go struct `TxNode`. `tx = none` models the nil `*sql.Tx` field. -/
structure TxNode where
  isStart : Bool
  tx : Option Tx
  isEnd : Bool
deriving DecidableEq

/-- `New()`: a fresh node with `isStart: true` and zero values elsewhere. -/
def New : TxNode := { isStart := true, tx := none, isEnd := false }

/-- `UnsetEnd()`. -/
def UnsetEnd (txn : TxNode) : TxNode := { txn with isEnd := false }

/-- `SetEnd()`. -/
def SetEnd (txn : TxNode) : TxNode := { txn with isEnd := true }

instance {ε α : Type} [DecidableEq ε] [DecidableEq α] : DecidableEq (Except ε α) :=
  fun a b =>
    match a, b with
    | .error e₁, .error e₂ =>
        if h : e₁ = e₂ then .isTrue (by rw [h]) else .isFalse (by simp [h])
    | .error _, .ok _ => .isFalse (by simp)
    | .ok _, .error _ => .isFalse (by simp)
    | .ok s₁, .ok s₂ =>
        if h : s₁ = s₂ then .isTrue (by rw [h]) else .isFalse (by simp [h])

/-- Result of `PrepareQuery`: the node after the call (the method mutates its
receiver in place), the `(*sql.Stmt, error)` pair as an `Except`, and the
trace of database calls made. -/
structure PrepareResult where
  node : Option TxNode
  stmt : Except GoError Stmt
  events : List DBEvent
deriving DecidableEq

/-- `func (txn *TxNode) PrepareQuery(ctx, db, query) (*sql.Stmt, error)`.

Branches, in source order: nil receiver delegates to `db.PrepareContext`;
`txn.isStart` begins a transaction (returning the begin error unchanged on
failure, otherwise storing the handle and preparing against it);
a stored `txn.tx` prepares against it; otherwise
`ErrTransactionArgsMismatch`. -/
def PrepareQuery (db : DB) (txn : Option TxNode) (ctx : Ctx) (query : String) :
    PrepareResult :=
  match txn with
  | none =>
      { node := none
        stmt := db.prepareContext ctx query
        events := [.dbPrepare ctx query] }
  | some n =>
      if n.isStart then
        match db.beginTx ctx with
        | .error e =>
            { node := some n, stmt := .error e, events := [.dbBeginTx ctx] }
        | .ok tx =>
            { node := some { n with isStart := false, tx := some tx }
              stmt := db.txPrepareContext tx ctx query
              events := [.dbBeginTx ctx, .txPrepare tx ctx query] }
      else
        match n.tx with
        | some tx =>
            { node := some n
              stmt := db.txPrepareContext tx ctx query
              events := [.txPrepare tx ctx query] }
        | none =>
            { node := some n
              stmt := .error ErrTransactionArgsMismatch
              events := [] }

/-- Result of `RollbackTransaction` / `CommitIfNeeded`: the node after the
call, the returned `error`, and the trace of database calls made. -/
structure UnitResult where
  node : Option TxNode
  err : Option GoError
  events : List DBEvent
deriving DecidableEq

/-- `func (txn *TxNode) RollbackTransaction() error`:
`if txn == nil || txn.tx == nil { return nil }; return txn.tx.Rollback()`. -/
def RollbackTransaction (db : DB) (txn : Option TxNode) : UnitResult :=
  match txn with
  | none => { node := none, err := none, events := [] }
  | some n =>
      match n.tx with
      | none => { node := some n, err := none, events := [] }
      | some tx =>
          { node := some n, err := db.txRollback tx, events := [.txRollback tx] }

/-- `func (txn *TxNode) CommitIfNeeded() error`:
`if txn == nil || txn.tx == nil || !txn.isEnd { return nil }; return txn.tx.Commit()`. -/
def CommitIfNeeded (db : DB) (txn : Option TxNode) : UnitResult :=
  match txn with
  | none => { node := none, err := none, events := [] }
  | some n =>
      match n.tx with
      | none => { node := some n, err := none, events := [] }
      | some tx =>
          if n.isEnd then
            { node := some n, err := db.txCommit tx, events := [.txCommit tx] }
          else
            { node := some n, err := none, events := [] }

/-- Result of `RollbackTransactionAndLog`: the node after the call, the
returned error, the messages sent to `log.Error` in order, and the trace of
database calls made. -/
structure LogResult where
  node : Option TxNode
  err : GoError
  logs : List String
  events : List DBEvent
deriving DecidableEq

/-- `func (txn *TxNode) RollbackTransactionAndLog(log, op, err) error`:
calls `txn.RollbackTransaction()`; on rollback failure logs
`"%s: rollback transaction: %v"`; always logs `"%s: %v"` with the cause;
returns `fmt.Errorf("%s: %w", op, err)`. -/
def RollbackTransactionAndLog (db : DB) (txn : Option TxNode) (op : String)
    (err : GoError) : LogResult :=
  let r := RollbackTransaction db txn
  let rollbackLogs :=
    match r.err with
    | some rollbackErr =>
        [op ++ ": rollback transaction: " ++ rollbackErr.message]
    | none => []
  { node := r.node
    err := .wrap op err
    logs := rollbackLogs ++ [op ++ ": " ++ err.message]
    events := r.events }

/-- One call of the component's public operations on a (non-nil) node, with
the collaborators and arguments it receives. Used to describe the states a
node can reach during its lifecycle. -/
inductive Op where
  | prepare (db : DB) (ctx : Ctx) (query : String)
  | setEnd
  | unsetEnd
  | rollback (db : DB)
  | commit (db : DB)

/-- The node state after one operation (each method mutates its receiver in
place; the methods that return results leave the node as `PrepareQuery`,
`RollbackTransaction` and `CommitIfNeeded` describe). -/
def applyOp (n : TxNode) : Op → TxNode
  | .prepare db ctx query =>
      match (PrepareQuery db (some n) ctx query).node with
      | some n' => n'
      | none => n
  | .setEnd => SetEnd n
  | .unsetEnd => UnsetEnd n
  | .rollback db =>
      match (RollbackTransaction db (some n)).node with
      | some n' => n'
      | none => n
  | .commit db =>
      match (CommitIfNeeded db (some n)).node with
      | some n' => n'
      | none => n

/-- The node state after a sequence of operations. -/
def run (n : TxNode) (ops : List Op) : TxNode := ops.foldl applyOp n

/-- A database on which every call succeeds. -/
def dbOk : DB :=
  { prepareContext := fun _ _ => .ok 1
    beginTx := fun _ => .ok 7
    txPrepareContext := fun tx _ _ => .ok (tx + 1)
    txRollback := fun _ => none
    txCommit := fun _ => none }

/-- A database on which `BeginTx` fails. -/
def dbBeginFails : DB :=
  { dbOk with beginTx := fun _ => .error (.errorNew "begin failed") }

/-- A database on which `BeginTx` succeeds but preparing on the transaction
fails. -/
def dbPrepareFails : DB :=
  { dbOk with txPrepareContext := fun _ _ _ => .error (.errorNew "prepare failed") }

/-- `RollbackTransaction` returns the node unchanged: the Go method never
assigns to a field of its receiver. -/
theorem rollbackTransaction_node (db : DB) (txn : Option TxNode) :
    (RollbackTransaction db txn).node = txn := by
  rcases txn with _ | n
  · rfl
  · rcases ht : n.tx with _ | tx <;> simp [RollbackTransaction, ht]

/-- `CommitIfNeeded` returns the node unchanged: the Go method never assigns
to a field of its receiver. -/
theorem commitIfNeeded_node (db : DB) (txn : Option TxNode) :
    (CommitIfNeeded db txn).node = txn := by
  rcases txn with _ | n
  · rfl
  · rcases ht : n.tx with _ | tx
    · simp [CommitIfNeeded, ht]
    · rcases he : n.isEnd <;> simp [CommitIfNeeded, ht, he]

/-- The node-lifecycle invariant of spec §3: a transaction handle is stored
exactly when `isStart` has flipped to false. -/
def txMatchesStart (n : TxNode) : Prop := n.tx.isSome = !n.isStart

/-- Every single operation preserves the lifecycle invariant. -/
theorem txMatchesStart_applyOp (n : TxNode) (o : Op) (h : txMatchesStart n) :
    txMatchesStart (applyOp n o) := by
  cases o with
  | prepare db ctx query =>
      unfold applyOp
      by_cases hs : n.isStart
      · rcases hb : db.beginTx ctx with e | tx
        · simpa [PrepareQuery, hs, hb] using h
        · simp [PrepareQuery, hs, hb, txMatchesStart]
      · rcases ht : n.tx with _ | tx
        · simpa [PrepareQuery, hs, ht] using h
        · simpa [PrepareQuery, hs, ht] using h
  | setEnd => simpa [applyOp, SetEnd, txMatchesStart] using h
  | unsetEnd => simpa [applyOp, UnsetEnd, txMatchesStart] using h
  | rollback db => simpa [applyOp, rollbackTransaction_node] using h
  | commit db => simpa [applyOp, commitIfNeeded_node] using h

/-- The invariant is preserved along any sequence of operations. -/
theorem txMatchesStart_run (ops : List Op) (n : TxNode) (h : txMatchesStart n) :
    txMatchesStart (run n ops) := by
  induction ops generalizing n with
  | nil => exact h
  | cons o ops ih => exact ih (applyOp n o) (txMatchesStart_applyOp n o h)

/-- Claim C1: on a non-nil node that already stores a transaction handle
(`tx ≠ nil` and `isStart` false), `PrepareQuery` prepares the statement
against the stored transaction and returns that call's result; the node is
unchanged and no begin call is issued (the event trace is exactly the single
prepare against the stored transaction), so a second `PrepareQuery` after a
first successful one reuses the already-stored transaction. -/
theorem prepareQuery_reuses_stored_transaction (db : DB) (n : TxNode) (tx : Tx)
    (ctx : Ctx) (query : String) (hs : n.isStart = false) (ht : n.tx = some tx) :
    PrepareQuery db (some n) ctx query =
      { node := some n
        stmt := db.txPrepareContext tx ctx query
        events := [.txPrepare tx ctx query] } := by
  simp [PrepareQuery, hs, ht]

/-- Witness for C1: a node in the post-begin state, on a healthy database. -/
theorem prepareQuery_reuses_stored_transaction_witness :
    PrepareQuery dbOk (some { isStart := false, tx := some 3, isEnd := false }) 0 "q" =
      { node := some { isStart := false, tx := some 3, isEnd := false }
        stmt := .ok 4
        events := [.txPrepare 3 0 "q"] } :=
  prepareQuery_reuses_stored_transaction dbOk
    { isStart := false, tx := some 3, isEnd := false } 3 0 "q" rfl rfl

/-- Claim C2: on a non-nil node with `isStart` true, if `BeginTx` fails then
`PrepareQuery` returns that begin error unchanged and the node is exactly its
original value (`isStart` still true, no transaction stored); the only
database call made is the failed begin. -/
theorem prepareQuery_begin_error_leaves_node (db : DB) (n : TxNode) (ctx : Ctx)
    (query : String) (e : GoError) (hs : n.isStart = true)
    (hb : db.beginTx ctx = .error e) :
    PrepareQuery db (some n) ctx query =
      { node := some n, stmt := .error e, events := [.dbBeginTx ctx] } := by
  simp [PrepareQuery, hs, hb]

/-- Witness for C2: a fresh node on a database whose begin fails. -/
theorem prepareQuery_begin_error_leaves_node_witness :
    PrepareQuery dbBeginFails (some New) 0 "q" =
      { node := some New
        stmt := .error (.errorNew "begin failed")
        events := [.dbBeginTx 0] } :=
  prepareQuery_begin_error_leaves_node dbBeginFails New 0 "q"
    (.errorNew "begin failed") rfl rfl

/-- Claim C3: for every node (nil included), operation name and cause error,
`RollbackTransactionAndLog` returns `fmt.Errorf("%s: %w", op, err)` — a wrap
of the cause, never the rollback error; its database calls are exactly those
of the rollback attempt; the rollback error is logged (tagged with `op`)
exactly when rollback fails, and the cause is always logged tagged with
`op`. -/
theorem rollbackAndLog_returns_wrapped_cause (db : DB) (txn : Option TxNode)
    (op : String) (err : GoError) :
    (RollbackTransactionAndLog db txn op err).err = GoError.wrap op err ∧
    (RollbackTransactionAndLog db txn op err).events =
      (RollbackTransaction db txn).events ∧
    (RollbackTransactionAndLog db txn op err).logs =
      (match (RollbackTransaction db txn).err with
        | some rollbackErr =>
            [op ++ ": rollback transaction: " ++ rollbackErr.message]
        | none => []) ++ [op ++ ": " ++ err.message] :=
  ⟨rfl, rfl, rfl⟩

/-- Claim C4: `PrepareQuery` on a nil node delegates to `db.PrepareContext`,
returns its result, begins no transaction and mutates nothing: the trace is
exactly the one direct prepare call. -/
theorem prepareQuery_nil_delegates (db : DB) (ctx : Ctx) (query : String) :
    PrepareQuery db none ctx query =
      { node := none
        stmt := db.prepareContext ctx query
        events := [.dbPrepare ctx query] } := rfl

/-- Claim C5: on a non-nil node with `isStart` true, if `BeginTx` succeeds
with handle `tx` then `PrepareQuery` sets `isStart` to false and stores `tx`
before preparing; the prepare result (error or not) is returned while the
transaction stays stored on the node, and no rollback call appears in the
trace. -/
theorem prepareQuery_begin_success_stores_tx (db : DB) (n : TxNode) (ctx : Ctx)
    (query : String) (tx : Tx) (hs : n.isStart = true)
    (hb : db.beginTx ctx = .ok tx) :
    PrepareQuery db (some n) ctx query =
      { node := some { isStart := false, tx := some tx, isEnd := n.isEnd }
        stmt := db.txPrepareContext tx ctx query
        events := [.dbBeginTx ctx, .txPrepare tx ctx query] } := by
  simp [PrepareQuery, hs, hb]

/-- Witness for C5: a fresh node on a database where begin succeeds but the
prepare on the transaction fails — the error is returned, yet the
transaction handle stays stored. -/
theorem prepareQuery_begin_success_stores_tx_witness :
    PrepareQuery dbPrepareFails (some New) 0 "q" =
      { node := some { isStart := false, tx := some 7, isEnd := false }
        stmt := .error (.errorNew "prepare failed")
        events := [.dbBeginTx 0, .txPrepare 7 0 "q"] } :=
  prepareQuery_begin_success_stores_tx dbPrepareFails New 0 "q" 7 rfl rfl

/-- Claim C6: `CommitIfNeeded` is a no-op returning no error when the node is
nil, when no transaction is stored, or when `isEnd` is false; only with a
stored transaction and `isEnd` true does it commit that transaction and
return the commit outcome. -/
theorem commitIfNeeded_only_at_end (db : DB) (txn : Option TxNode) :
    (txn = none →
        CommitIfNeeded db txn = { node := none, err := none, events := [] }) ∧
    (∀ n, txn = some n → n.tx = none →
        CommitIfNeeded db txn = { node := some n, err := none, events := [] }) ∧
    (∀ n, txn = some n → n.isEnd = false →
        CommitIfNeeded db txn = { node := some n, err := none, events := [] }) ∧
    (∀ n tx, txn = some n → n.tx = some tx → n.isEnd = true →
        CommitIfNeeded db txn =
          { node := some n, err := db.txCommit tx, events := [.txCommit tx] }) := by
  refine ⟨fun h => by subst h; rfl, ?_, ?_, ?_⟩
  · rintro n rfl ht
    simp [CommitIfNeeded, ht]
  · rintro n rfl he
    rcases ht : n.tx with _ | tx <;> simp [CommitIfNeeded, ht, he]
  · rintro n tx rfl ht he
    simp [CommitIfNeeded, ht, he]

/-- Claim C7: `RollbackTransaction` is a no-op returning no error on a nil
node or when no transaction was begun; otherwise it invokes rollback on the
stored transaction and returns its result, whatever `isEnd` is. -/
theorem rollbackTransaction_routes_to_tx (db : DB) (txn : Option TxNode) :
    (txn = none →
        RollbackTransaction db txn = { node := none, err := none, events := [] }) ∧
    (∀ n, txn = some n → n.tx = none →
        RollbackTransaction db txn = { node := some n, err := none, events := [] }) ∧
    (∀ n tx, txn = some n → n.tx = some tx →
        RollbackTransaction db txn =
          { node := some n, err := db.txRollback tx, events := [.txRollback tx] }) := by
  refine ⟨fun h => by subst h; rfl, ?_, ?_⟩
  · rintro n rfl ht
    simp [RollbackTransaction, ht]
  · rintro n tx rfl ht
    simp [RollbackTransaction, ht]

/-- Claim C8: on a non-nil node with `isStart` false and no stored
transaction, `PrepareQuery` fails with `ErrTransactionArgsMismatch`, makes no
database call (empty trace) and leaves the node unchanged. -/
theorem prepareQuery_args_mismatch (db : DB) (n : TxNode) (ctx : Ctx)
    (query : String) (hs : n.isStart = false) (ht : n.tx = none) :
    PrepareQuery db (some n) ctx query =
      { node := some n, stmt := .error ErrTransactionArgsMismatch, events := [] } := by
  simp [PrepareQuery, hs, ht]

/-- Witness for C8: the inconsistent state on a healthy database. -/
theorem prepareQuery_args_mismatch_witness :
    PrepareQuery dbOk (some { isStart := false, tx := none, isEnd := false }) 0 "q" =
      { node := some { isStart := false, tx := none, isEnd := false }
        stmt := .error ErrTransactionArgsMismatch
        events := [] } :=
  prepareQuery_args_mismatch dbOk
    { isStart := false, tx := none, isEnd := false } 0 "q" rfl rfl

/-- Claim C9: along every sequence of operations starting from `New`, a
transaction handle is stored exactly when `isStart` has become false. -/
theorem run_New_tx_iff_not_started (ops : List Op) :
    (run New ops).tx ≠ none ↔ (run New ops).isStart = false := by
  have h : txMatchesStart (run New ops) := txMatchesStart_run ops New rfl
  unfold txMatchesStart at h
  constructor
  · intro hne
    rcases hx : (run New ops).tx with _ | tx
    · exact absurd hx hne
    · rw [hx] at h
      simpa using h.symm
  · intro hstart
    rw [hstart] at h
    simp only [Bool.not_false] at h
    intro hnone
    rw [hnone] at h
    simp at h

/-- Claim C10: neither `RollbackTransaction` nor `CommitIfNeeded` mutates the
node — the node after either call equals the node before, so the stored
transaction, `isStart` and `isEnd` persist; consequently, on an end-marked
node with a stored transaction, a `CommitIfNeeded` following a
`CommitIfNeeded` issues a second commit call on the same transaction rather
than becoming a no-op. -/
theorem rollback_commit_mutate_nothing (db : DB) (txn : Option TxNode) :
    ((RollbackTransaction db txn).node = txn ∧
      (CommitIfNeeded db txn).node = txn) ∧
    (∀ n tx, txn = some n → n.tx = some tx → n.isEnd = true →
        (CommitIfNeeded db txn).events = [.txCommit tx] ∧
        (CommitIfNeeded db (CommitIfNeeded db txn).node).events = [.txCommit tx]) := by
  refine ⟨⟨rollbackTransaction_node db txn, commitIfNeeded_node db txn⟩, ?_⟩
  rintro n tx rfl ht he
  rw [commitIfNeeded_node]
  simp [CommitIfNeeded, ht, he]

end Txnode
